import Mathlib

set_option autoImplicit false

/-!
# Verification of the queue-consumer service (src/index.js)

Shallow embedding of the RabbitMQ→webhook forwarder in `src/index.js`.
The embedding keeps the source's structure: the `RabbitMQConsumer` object's
mutable fields become an explicit state (`SysState`), the Redis store becomes
an association list of hashes (`Store`), and every external interaction
(broker, webhook HTTP call, clock, random draw) is an input supplied by an
environment record (`Env`) or an oracle describing the outcome the external
system produced.  Channel-facing operations performed by the code are
collected in an `effects` list so that theorems can talk about which
acks/nacks/queue-checks the code issues.

JavaScript specifics kept faithful:
* Redis `hset`/`hgetall`/`del` operate on string-valued hashes.
* `try`/`catch` blocks are translated branch by branch: every `catch` arm of
  the source appears as the corresponding constructor case of the oracle that
  models the throwing operation.
* `axios.post` rejects for any HTTP status outside `[200, 300)`; a rejection
  carries `error.response` exactly when an HTTP response was received.
* Errors swallowed by the source (logged and ignored) yield
  `ProcOutcome.continue`; the source has no `process.exit` call in the
  embedded functions, so no embedded function ever produces
  `ProcOutcome.exitProcess`.
-/

/-- Business-hours window, `businessHours = { start, end }` in the source.
`endH` stands for the source's field `end` (a Lean keyword). -/
structure BusinessHours where
  start : Int
  endH : Int
deriving DecidableEq, Repr

/-- One entry of `this.activeConsumers` (src/index.js lines 601-609).
`lastMessage` holds the decoded payload of the last forwarded message
(modelled as the raw JSON text). -/
structure RuntimeConsumer where
  consumerTag : String
  webhook : String
  minInterval : Int
  maxInterval : Int
  businessHours : BusinessHours
  lastMessage : Option String
  paused : Bool
deriving DecidableEq, Repr

/-- Association-list lookup; models `Map.get` / JS object field access. -/
def assocGet {α : Type} : List (String × α) → String → Option α
  | [], _ => none
  | (k, v) :: r, q => if k = q then some v else assocGet r q

/-- Association-list insert/overwrite; models `Map.set` / JS field assignment. -/
def assocSet {α : Type} : List (String × α) → String → α → List (String × α)
  | [], q, v => [(q, v)]
  | (k, x) :: r, q, v => if k = q then (q, v) :: r else (k, x) :: assocSet r q v

/-- Association-list removal; models `Map.delete` / Redis `del`. -/
def assocDelete {α : Type} : List (String × α) → String → List (String × α)
  | [], _ => []
  | (k, x) :: r, q => if k = q then assocDelete r q else (k, x) :: assocDelete r q

/-- Update the value stored at a key, if present; models mutation of the
object fetched from the map (`consumer.paused = true`, `consumer.lastMessage
= messageContent`). -/
def assocUpdate {α : Type} : List (String × α) → String → (α → α) → List (String × α)
  | [], _, _ => []
  | (k, x) :: r, q, f => if k = q then (k, f x) :: r else (k, x) :: assocUpdate r q f

/-- In-memory registry `this.activeConsumers`. -/
abbrev Registry := List (String × RuntimeConsumer)

/-- One Redis hash: field name → string value. -/
abbrev RHash := List (String × String)

/-- The durable store: Redis key → hash.  Keys are `"consumer:" ++ queue`. -/
abbrev Store := List (String × RHash)

/-- Redis `hgetall key`: returns the empty hash when the key is absent,
matching Redis returning `{}`. -/
def storeHGetAll (st : Store) (key : String) : RHash :=
  (assocGet st key).getD []

/-- Redis `hset key field value ...`: sets each field of the hash at `key`,
creating the hash when the key is absent. -/
def storeHSet (st : Store) (key : String) (fields : List (String × String)) : Store :=
  assocSet st key (fields.foldl (fun h p => assocSet h p.1 p.2) (storeHGetAll st key))

/-- Redis `hset key field value` with a single field. -/
def storeHSetField (st : Store) (key : String) (f v : String) : Store :=
  storeHSet st key [(f, v)]

/-- Redis `del key`. -/
def storeDel (st : Store) (key : String) : Store :=
  assocDelete st key

/-- What an embedded function lets the process do next.  The source functions
that swallow errors produce `.continue`; `process.exit(code)` would be
`.exitProcess code` (no embedded function of src/index.js produces it). -/
inductive ProcOutcome
  | continue
  | exitProcess (code : Nat)
deriving DecidableEq, Repr

/-- Outcome of one Redis command as observed by the caller: either the
command succeeded or the client raised an I/O error (connection failure,
timeout, ...), which the source catches. -/
inductive RedisResult
  | ok
  | ioError (msg : String)
deriving DecidableEq, Repr

/-- JS `Boolean.prototype.toString`. -/
def boolToString (b : Bool) : String := if b then "true" else "false"

/-- src/index.js lines 47-61, `saveConsumerToRedis`.  The `try` body performs
the `hset`; the `catch` logs and falls through — in both cases the function
returns normally (`.continue`). -/
def saveConsumerToRedis (r : RedisResult) (st : Store) (queue webhook : String)
    (minInterval maxInterval : Int) (businessHours : BusinessHours) (paused : Bool) :
    Store × ProcOutcome :=
  match r with
  | .ok =>
      (storeHSet st ("consumer:" ++ queue)
        [("webhook", webhook),
         ("minInterval", toString minInterval),
         ("maxInterval", toString maxInterval),
         ("businessHoursStart", toString businessHours.start),
         ("businessHoursEnd", toString businessHours.endH),
         ("paused", boolToString paused)], .continue)
  | .ioError _ => (st, .continue)

/-- src/index.js lines 63-70, `deleteConsumerFromRedis`: `del` in a `try`,
`catch` logs and continues. -/
def deleteConsumerFromRedis (r : RedisResult) (st : Store) (queue : String) :
    Store × ProcOutcome :=
  match r with
  | .ok => (storeDel st ("consumer:" ++ queue), .continue)
  | .ioError _ => (st, .continue)

/-- src/index.js lines 72-79, `updateConsumerPausedState`: single-field
`hset` in a `try`, `catch` logs and continues. -/
def updateConsumerPausedState (r : RedisResult) (st : Store) (queue : String)
    (paused : Bool) : Store × ProcOutcome :=
  match r with
  | .ok => (storeHSetField st ("consumer:" ++ queue) "paused" (boolToString paused), .continue)
  | .ioError _ => (st, .continue)

/-- src/index.js lines 618-620, `getRandomInterval`:
`Math.floor(Math.random() * (maxInterval - minInterval + 1) + minInterval)`,
with the `Math.random()` draw `u ∈ [0,1)` made explicit. -/
def getRandomInterval (u : ℚ) (minInterval maxInterval : Int) : Int :=
  ⌊u * ((maxInterval : ℚ) - (minInterval : ℚ) + 1) + (minInterval : ℚ)⌋

/-- src/index.js lines 622-626, `isWithinBusinessHours`:
`hour >= businessHours.start && hour < businessHours.end`, with the hour in
the configured timezone supplied as input. -/
def isWithinBusinessHours (hour : Int) (businessHours : BusinessHours) : Bool :=
  decide (businessHours.start ≤ hour) && decide (hour < businessHours.endH)

/-- An operation the code performs on the AMQP channel. -/
inductive ChannelOp
  | ack
  | nack (requeue : Bool)
  | checkQueue (queue : String)
  | cancel (consumerTag : String)
deriving DecidableEq, Repr

/-- Externally visible actions of one run of the delivery pipeline, in
program order. -/
inductive Effect
  | channel (op : ChannelOp)
  | webhookPost (url : String) (payload : String)
  | finishNotify (queue : String) (lastMessage : Option String)
deriving DecidableEq, Repr

/-- Outcome of `axios.post(webhook, ...)`: an HTTP response with some status
(axios rejects with `error.response` set when the status is outside
`[200,300)`), or a transport error (no response at all). -/
inductive WebhookResult
  | response (status : Nat)
  | transportError (msg : String)
deriving DecidableEq, Repr

/-- Outcome of `channel.checkQueue(queue)`: queue info, a 404 rejection whose
message contains `'no queue'`, or some other channel error. -/
inductive CheckQueueResult
  | ok (messageCount : Nat)
  | notFound
  | err (msg : String)
deriving DecidableEq, Repr

/-- One AMQP delivery handed to the consume callback.  `channelVersion` is
the generation of the channel the callback was registered on — the
channel-versioning notion from the repository's own fix documentation
(`FIX - Loop de "Channel Closed"`): each fresh channel bumps the generation,
and a delivery belongs to the generation current at subscribe time.  The
source in src/index.js carries no such field and `processMessage` below
accordingly never reads it; that absence is exactly what claim C1 is about. -/
structure Delivery where
  content : String
  channelVersion : Nat
deriving DecidableEq, Repr

/-- External inputs consumed by one run of `processMessage`:
the current hour in the configured timezone, the result of
`JSON.parse(msg.content.toString())` (`none` = parse throws), the outcome of
the webhook call, the outcome of the drain-check `checkQueue`, the
`Math.random()` draw used for the next interval, and `Date.now()`. -/
structure Env where
  hour : Int
  parse : Option String
  webhookResult : WebhookResult
  checkQueueResult : CheckQueueResult
  u : ℚ
  now : Int
deriving DecidableEq, Repr

/-- The mutable fields of the `RabbitMQConsumer` object that the delivery
pipeline reads or writes.  `channelOpen` is the value of `isChannelOpen()`;
it is constant across one embedded pipeline run, so the source's repeated
`isChannelOpen()` checks after the first one reduce (the branches they guard
are reachable only when the channel state changes mid-run).
`channelVersion` is the current channel generation (see `Delivery`); the
source keeps no such counter, so `processMessage` never consults it. -/
structure SysState where
  channelOpen : Bool
  channelVersion : Nat
  registry : Registry
  store : Store
  queueIntervals : List (String × Int)
  lastSend : List (String × Int)
deriving DecidableEq, Repr

/-- Result of one run of the delivery pipeline: the effects issued, in
order, and the new values of the mutated fields. -/
structure ProcResult where
  effects : List Effect
  registry : Registry
  store : Store
  queueIntervals : List (String × Int)
  lastSend : List (String × Int)
deriving DecidableEq, Repr

/-- src/index.js lines 639-720, `processMessage`.  Direct translation:

* `if (!msg) return` — the `none` case;
* `if (!this.isChannelOpen()) return` — guard on `st.channelOpen`;
* pause gate: `if (consumer && consumer.paused)` nacks with requeue;
* hours gate: `if (!this.isWithinBusinessHours(...))` nacks with requeue;
* the `try` body: `JSON.parse` (throw → `catch` with neither `.response` nor
  a 404 code → final `else`: nack+requeue), `axios.post` (transport error →
  same nack branch; HTTP error status → `catch` with `error.response` set →
  ack only), ack, `consumer.lastMessage = messageContent`,
  `channel.checkQueue` (404 → `catch` 404 branch: registry delete only;
  other error → nack branch), drain branch (cancel + finish notification +
  registry delete — note: no Redis delete in the source), otherwise
  `lastSend`/`queueIntervals` bookkeeping with a fresh random interval. -/
def processMessage (st : SysState) (msg : Option Delivery) (queue webhook : String)
    (minInterval maxInterval : Int) (businessHours : BusinessHours) (env : Env) :
    ProcResult :=
  match msg with
  | none => ⟨[], st.registry, st.store, st.queueIntervals, st.lastSend⟩
  | some _d =>
    if st.channelOpen = false then
      ⟨[], st.registry, st.store, st.queueIntervals, st.lastSend⟩
    else
      let consumer := assocGet st.registry queue
      if (consumer.map RuntimeConsumer.paused).getD false then
        ⟨[.channel (.nack true)], st.registry, st.store, st.queueIntervals, st.lastSend⟩
      else if isWithinBusinessHours env.hour businessHours = false then
        ⟨[.channel (.nack true)], st.registry, st.store, st.queueIntervals, st.lastSend⟩
      else
        match env.parse with
        | none =>
          ⟨[.channel (.nack true)], st.registry, st.store, st.queueIntervals, st.lastSend⟩
        | some payload =>
          match env.webhookResult with
          | .transportError _ =>
            ⟨[.webhookPost webhook payload, .channel (.nack true)],
             st.registry, st.store, st.queueIntervals, st.lastSend⟩
          | .response status =>
            if 200 ≤ status ∧ status < 300 then
              let reg1 := assocUpdate st.registry queue
                (fun c => { c with lastMessage := some payload })
              match env.checkQueueResult with
              | .ok messageCount =>
                if messageCount = 0 then
                  match consumer with
                  | some c =>
                    ⟨[.webhookPost webhook payload, .channel .ack,
                      .channel (.checkQueue queue), .channel (.cancel c.consumerTag),
                      .finishNotify queue (some payload)],
                     assocDelete reg1 queue, st.store, st.queueIntervals, st.lastSend⟩
                  | none =>
                    ⟨[.webhookPost webhook payload, .channel .ack,
                      .channel (.checkQueue queue)],
                     reg1, st.store, st.queueIntervals, st.lastSend⟩
                else
                  ⟨[.webhookPost webhook payload, .channel .ack,
                    .channel (.checkQueue queue)],
                   reg1, st.store,
                   assocSet st.queueIntervals queue
                     (getRandomInterval env.u minInterval maxInterval),
                   assocSet st.lastSend queue env.now⟩
              | .notFound =>
                ⟨[.webhookPost webhook payload, .channel .ack,
                  .channel (.checkQueue queue)],
                 assocDelete reg1 queue, st.store, st.queueIntervals, st.lastSend⟩
              | .err _ =>
                ⟨[.webhookPost webhook payload, .channel .ack,
                  .channel (.checkQueue queue), .channel (.nack true)],
                 reg1, st.store, st.queueIntervals, st.lastSend⟩
            else
              ⟨[.webhookPost webhook payload, .channel .ack],
               st.registry, st.store, st.queueIntervals, st.lastSend⟩

/-- Outcome of the broker operations inside `startConsuming`'s `try` block,
in program order: either all three (`checkQueue`, `prefetch`, `consume`)
succeeded and the broker allocated a consumer tag, or the first failing
operation is named together with the error message the broker produced.
`prefetchFails`/`consumeFails` model failures after a successful queue check,
i.e. transient broker errors for a queue that does exist. -/
inductive SubscribeOracle
  | ok (consumerTag : String)
  | checkQueueFails (msg : String)
  | prefetchFails (msg : String)
  | consumeFails (msg : String)
deriving DecidableEq, Repr

/-- src/index.js lines 571-616, `startConsuming`.  Outside the `try`:
`if (!this.channel) throw new Error('Not connected to RabbitMQ')`.  Inside
the `try`: check queue, set prefetch, register the consume callback, insert
the RuntimeConsumer into `activeConsumers` with `lastMessage: null` and
`paused: false`, and draw `queueIntervals[queue]`.  The `catch` discards the
original error and rethrows `Queue ${queue} does not exist`, whatever the
cause was. -/
def startConsuming (hasChannel : Bool) (orc : SubscribeOracle) (u : ℚ)
    (reg : Registry) (queueIntervals : List (String × Int))
    (queue webhook : String) (minInterval maxInterval : Int)
    (businessHours : BusinessHours) :
    Except String (Registry × List (String × Int)) :=
  if hasChannel = false then
    .error "Not connected to RabbitMQ"
  else
    match orc with
    | .ok consumerTag =>
        .ok (assocSet reg queue
              { consumerTag := consumerTag
                webhook := webhook
                minInterval := minInterval
                maxInterval := maxInterval
                businessHours := businessHours
                lastMessage := none
                paused := false },
             assocSet queueIntervals queue (getRandomInterval u minInterval maxInterval))
    | .checkQueueFails _ => .error ("Queue " ++ queue ++ " does not exist")
    | .prefetchFails _ => .error ("Queue " ++ queue ++ " does not exist")
    | .consumeFails _ => .error ("Queue " ++ queue ++ " does not exist")

/-- JS `String.prototype.includes`, as substring containment on the
character data. -/
def jsIncludes (s sub : String) : Bool :=
  decide (sub.data <:+: s.data)

/-- JS `parseInt` on the decimal strings this service writes to Redis.
`parseInt` of a malformed string yields `NaN`, which is not modelled: no
claim evaluates the restore path on malformed numeric fields. -/
def jsParseInt (s : String) : Int :=
  (s.toInt?).getD 0

/-- Replace the first occurrence of `pat` in a character list by `repl`;
helper for `jsReplaceFirst`. -/
def listReplaceFirst (pat repl : List Char) : List Char → List Char
  | [] => if pat.isEmpty then repl else []
  | c :: rest =>
    if pat.isPrefixOf (c :: rest) then repl ++ (c :: rest).drop pat.length
    else c :: listReplaceFirst pat repl rest

/-- JS `String.prototype.replace` with a plain-string pattern: replaces only
the first occurrence (the Lean core `String.replace` replaces every
occurrence and does not reduce in the kernel). -/
def jsReplaceFirst (s pat repl : String) : String :=
  ⟨listReplaceFirst pat.data repl.data s.data⟩

/-- src/index.js lines 86-124, the body of the `for (const key of keys)` loop
of `loadConsumersFromRedis`, for one Redis key:

* `queue = key.replace('consumer:', '')`;
* `config = hgetall(key)`; skip when `config.webhook` is missing or empty;
* `startConsuming(...)` with the parsed fields;
* on success, `if (config.paused === 'true')` set `paused` on the registry
  entry — after `startConsuming` has already registered the consumer;
* on failure, `if (error.message.includes('does not exist'))` delete the key
  from Redis (the Redis `del` itself succeeding). -/
def restoreOne (hasChannel : Bool) (orc : SubscribeOracle) (u : ℚ)
    (reg : Registry) (queueIntervals : List (String × Int)) (st : Store)
    (key : String) : Registry × List (String × Int) × Store :=
  let queue := jsReplaceFirst key "consumer:" ""
  let config := storeHGetAll st key
  match assocGet config "webhook" with
  | none => (reg, queueIntervals, st)
  | some webhook =>
    if webhook = "" then (reg, queueIntervals, st)
    else
      let businessHours : BusinessHours :=
        { start := jsParseInt ((assocGet config "businessHoursStart").getD "")
          endH := jsParseInt ((assocGet config "businessHoursEnd").getD "") }
      match startConsuming hasChannel orc u reg queueIntervals queue webhook
          (jsParseInt ((assocGet config "minInterval").getD ""))
          (jsParseInt ((assocGet config "maxInterval").getD "")) businessHours with
      | .ok (reg1, qi1) =>
        let reg2 :=
          if assocGet config "paused" = some "true" then
            match assocGet reg1 queue with
            | some c => assocSet reg1 queue { c with paused := true }
            | none => reg1
          else reg1
        (reg2, qi1, st)
      | .error e =>
        (reg, queueIntervals,
         if jsIncludes e "does not exist" then storeDel st key else st)

/-- JS `String.prototype.trim`, dropping whitespace from both ends of the
character data (`String.trim` of the Lean core is extensionally the same but
does not reduce in the kernel, so the handlers below use this definition). -/
def jsTrim (s : String) : String :=
  ⟨((s.data.dropWhile Char.isWhitespace).reverse.dropWhile Char.isWhitespace).reverse⟩

/-- A control-API response: `res.json(...)` on success or
`res.status(code).json(...)` on error. -/
inductive ApiResponse
  | ok (msg : String)
  | err (status : Nat) (msg : String)
deriving DecidableEq, Repr

/-- src/index.js lines 492-515, the `POST /pause` handler: validate the queue
name, look the consumer up, reject when absent or already paused, otherwise
set `consumer.paused = true`, await `updateConsumerPausedState` (whose Redis
outcome is `r`), then answer success. -/
def pauseHandler (reg : Registry) (st : Store) (queue : String) (r : RedisResult) :
    ApiResponse × Registry × Store :=
  if jsTrim queue = "" then
    (.err 400 "Queue name is required and must be a non-empty string.", reg, st)
  else
    match assocGet reg queue with
    | none => (.err 404 "Queue is not being consumed", reg, st)
    | some c =>
      if c.paused then (.err 400 "Queue is already paused", reg, st)
      else
        (.ok ("Queue " ++ queue ++ " has been paused"),
         assocUpdate reg queue (fun c => { c with paused := true }),
         (updateConsumerPausedState r st queue true).1)

/-- src/index.js lines 517-540, the `POST /resume` handler, symmetric to
`pauseHandler`. -/
def resumeHandler (reg : Registry) (st : Store) (queue : String) (r : RedisResult) :
    ApiResponse × Registry × Store :=
  if jsTrim queue = "" then
    (.err 400 "Queue name is required and must be a non-empty string.", reg, st)
  else
    match assocGet reg queue with
    | none => (.err 404 "Queue is not being consumed", reg, st)
    | some c =>
      if c.paused = false then (.err 400 "Queue is not paused", reg, st)
      else
        (.ok ("Queue " ++ queue ++ " has been resumed"),
         assocUpdate reg queue (fun c => { c with paused := false }),
         (updateConsumerPausedState r st queue false).1)

theorem assocGet_set_self {α : Type} (l : List (String × α)) (k : String) (v : α) :
    assocGet (assocSet l k v) k = some v := by
  induction l with
  | nil => simp [assocSet, assocGet]
  | cons p r ih =>
    obtain ⟨k1, x⟩ := p
    by_cases h : k1 = k
    · simp [assocSet, assocGet, h]
    · simp [assocSet, assocGet, h, ih]

theorem assocGet_delete_self {α : Type} (l : List (String × α)) (k : String) :
    assocGet (assocDelete l k) k = none := by
  induction l with
  | nil => simp [assocDelete, assocGet]
  | cons p r ih =>
    obtain ⟨k1, x⟩ := p
    by_cases h : k1 = k
    · simp [assocDelete, h, ih]
    · simp [assocDelete, assocGet, h, ih]

theorem assocGet_update_self {α : Type} (l : List (String × α)) (k : String) (f : α → α) :
    assocGet (assocUpdate l k f) k = (assocGet l k).map f := by
  induction l with
  | nil => simp [assocUpdate, assocGet]
  | cons p r ih =>
    obtain ⟨k1, x⟩ := p
    by_cases h : k1 = k
    · simp [assocUpdate, assocGet, h]
    · simp [assocUpdate, assocGet, h, ih]

theorem string_data_append (a b : String) : (a ++ b).data = a.data ++ b.data := rfl

/-- Every message thrown by `startConsuming`'s catch-all contains the
substring the restore loop tests for. -/
theorem jsIncludes_doesNotExist (q : String) :
    jsIncludes ("Queue " ++ q ++ " does not exist") "does not exist" = true := by
  have hinf : ("does not exist".data) <:+: ("Queue " ++ q ++ " does not exist").data := by
    refine List.IsSuffix.isInfix ?_
    refine ⟨"Queue ".data ++ q.data ++ [' '], ?_⟩
    rw [string_data_append, string_data_append]
    simp
  exact decide_eq_true hinf

/-- C8: for all integers `0 ≤ min ≤ max` and every uniform draw `u ∈ [0,1)`,
`getRandomInterval u min max = ⌊u * (max - min + 1)⌋ + min`, the result lies
in `[min, max]`, `min = max` forces the constant, and the endpoint `max` is
reachable by some draw. -/
theorem getRandomInterval_spec (mn mx : Int) (hmn : 0 ≤ mn) (hle : mn ≤ mx) :
    (∀ u : ℚ, 0 ≤ u → u < 1 →
        getRandomInterval u mn mx = ⌊u * ((mx : ℚ) - (mn : ℚ) + 1)⌋ + mn
        ∧ mn ≤ getRandomInterval u mn mx
        ∧ getRandomInterval u mn mx ≤ mx
        ∧ (mn = mx → getRandomInterval u mn mx = mn))
    ∧ ∃ u : ℚ, 0 ≤ u ∧ u < 1 ∧ getRandomInterval u mn mx = mx := by
  have hcast : (mn : ℚ) ≤ (mx : ℚ) := by exact_mod_cast hle
  have hr : (0 : ℚ) < (mx : ℚ) - (mn : ℚ) + 1 := by linarith
  constructor
  · intro u hu hu1
    have heq : getRandomInterval u mn mx = ⌊u * ((mx : ℚ) - (mn : ℚ) + 1)⌋ + mn := by
      unfold getRandomInterval
      exact Int.floor_add_int _ _
    have hlow : 0 ≤ ⌊u * ((mx : ℚ) - (mn : ℚ) + 1)⌋ :=
      Int.floor_nonneg.mpr (mul_nonneg hu hr.le)
    have hupper : ⌊u * ((mx : ℚ) - (mn : ℚ) + 1)⌋ < mx - mn + 1 := by
      rw [Int.floor_lt]
      push_cast
      exact mul_lt_of_lt_one_left hr hu1
    refine ⟨heq, by omega, by omega, fun h => by omega⟩
  · refine ⟨((mx : ℚ) - (mn : ℚ)) / ((mx : ℚ) - (mn : ℚ) + 1), ?_, ?_, ?_⟩
    · exact div_nonneg (by linarith) hr.le
    · rw [div_lt_one hr]; linarith
    · unfold getRandomInterval
      rw [div_mul_cancel₀ _ (ne_of_gt hr)]
      have hmxcast : (mx : ℚ) - (mn : ℚ) + (mn : ℚ) = ((mx : ℤ) : ℚ) := by ring
      rw [hmxcast, Int.floor_intCast]

/-- Witness for C8 at `min = 2`, `max = 5`. -/
theorem getRandomInterval_spec_witness :
    (0 : Int) ≤ 2 ∧ (2 : Int) ≤ 5
      ∧ (∃ u : ℚ, 0 ≤ u ∧ u < 1 ∧ getRandomInterval u 2 5 = 5) :=
  ⟨by decide, by decide, (getRandomInterval_spec 2 5 (by decide) (by decide)).2⟩

/-- C9: with the channel open and the consumer not paused, the delivery
pipeline forwards to the webhook only when the current hour satisfies
`start ≤ h < end` (half-open window); outside the window — including
`h = end` and the empty window `start = end` — the delivery is nacked with
requeue and the webhook is not called. -/
theorem businessHours_gate (st : SysState) (d : Delivery) (queue webhook : String)
    (mn mx : Int) (bh : BusinessHours) (env : Env) (c : RuntimeConsumer)
    (hopen : st.channelOpen = true)
    (hc : assocGet st.registry queue = some c)
    (hp : c.paused = false) :
    (¬ (bh.start ≤ env.hour ∧ env.hour < bh.endH) →
        (processMessage st (some d) queue webhook mn mx bh env).effects
            = [Effect.channel (ChannelOp.nack true)]
        ∧ ∀ url pl, Effect.webhookPost url pl ∉
            (processMessage st (some d) queue webhook mn mx bh env).effects)
    ∧ ((bh.start ≤ env.hour ∧ env.hour < bh.endH) → ∀ pl, env.parse = some pl →
        Effect.webhookPost webhook pl ∈
            (processMessage st (some d) queue webhook mn mx bh env).effects) := by
  constructor
  · intro hout
    have hw : isWithinBusinessHours env.hour bh = false := by
      unfold isWithinBusinessHours
      rcases not_and_or.mp hout with h | h
      · simp [h]
      · simp [h]
    have heff : (processMessage st (some d) queue webhook mn mx bh env).effects
        = [Effect.channel (ChannelOp.nack true)] := by
      simp [processMessage, hopen, hc, hp, hw]
    refine ⟨heff, ?_⟩
    intro url pl
    rw [heff]
    simp
  · intro hin pl hpl
    have hw : isWithinBusinessHours env.hour bh = true := by
      unfold isWithinBusinessHours
      simp [hin.1, hin.2]
    cases hwr : env.webhookResult with
    | transportError m => simp [processMessage, hopen, hc, hp, hw, hpl, hwr]
    | response s =>
      by_cases hs : 200 ≤ s ∧ s < 300
      · cases hcq : env.checkQueueResult with
        | ok n =>
          by_cases hn : n = 0
          · simp [processMessage, hopen, hc, hp, hw, hpl, hwr, hs, hcq, hn]
          · simp [processMessage, hopen, hc, hp, hw, hpl, hwr, hs, hcq, hn]
        | notFound => simp [processMessage, hopen, hc, hp, hw, hpl, hwr, hs, hcq]
        | err m => simp [processMessage, hopen, hc, hp, hw, hpl, hwr, hs, hcq]
      · simp [processMessage, hopen, hc, hp, hw, hpl, hwr, hs]

/-- Witness for C9 at `h = end = 21` with window `[8, 21)`: the delivery is
nacked with requeue and no webhook call appears among the effects. -/
theorem businessHours_gate_witness :
    (⟨true, 1, [("q1", ⟨"tag-1", "http://w", 1000, 2000, ⟨8, 21⟩, none, false⟩)],
        [], [], []⟩ : SysState).channelOpen = true
    ∧ assocGet [("q1", (⟨"tag-1", "http://w", 1000, 2000, ⟨8, 21⟩, none, false⟩ :
        RuntimeConsumer))] "q1"
        = some ⟨"tag-1", "http://w", 1000, 2000, ⟨8, 21⟩, none, false⟩
    ∧ (¬ ((8 : Int) ≤ 21 ∧ (21 : Int) < 21))
    ∧ (processMessage
        ⟨true, 1, [("q1", ⟨"tag-1", "http://w", 1000, 2000, ⟨8, 21⟩, none, false⟩)],
          [], [], []⟩
        (some ⟨"m1", 1⟩) "q1" "http://w" 1000 2000 ⟨8, 21⟩
        ⟨21, some "pl", .response 200, .ok 3, 0, 0⟩).effects
        = [Effect.channel (ChannelOp.nack true)] := by
  refine ⟨rfl, by decide, by decide, ?_⟩
  exact (businessHours_gate
    ⟨true, 1, [("q1", ⟨"tag-1", "http://w", 1000, 2000, ⟨8, 21⟩, none, false⟩)], [], [], []⟩
    ⟨"m1", 1⟩ "q1" "http://w" 1000 2000 ⟨8, 21⟩
    ⟨21, some "pl", .response 200, .ok 3, 0, 0⟩
    ⟨"tag-1", "http://w", 1000, 2000, ⟨8, 21⟩, none, false⟩
    rfl (by decide) rfl).1 (by decide) |>.1

/-- C1 (refuting the epoch gate): `processMessage` in src/index.js gates
channel operations only on `isChannelOpen()`; it keeps no channel-generation
("epoch") counter, so for a delivery captured on an obsolete channel
generation (`d.channelVersion ≠ st.channelVersion`, the version notion of the
repository's own channel-versioning fix documentation) it still acks the
delivery and issues the drain queue-check whenever the currently installed
channel is open — the operations are not skipped. -/
theorem processMessage_ignores_channelVersion (st : SysState) (d : Delivery)
    (queue webhook : String) (mn mx : Int) (bh : BusinessHours) (env : Env)
    (c : RuntimeConsumer) (pl : String) (s : Nat)
    (hver : d.channelVersion ≠ st.channelVersion)
    (hopen : st.channelOpen = true)
    (hc : assocGet st.registry queue = some c)
    (hp : c.paused = false)
    (hw : isWithinBusinessHours env.hour bh = true)
    (hpl : env.parse = some pl)
    (hwr : env.webhookResult = .response s)
    (hs : 200 ≤ s ∧ s < 300) :
    Effect.channel ChannelOp.ack ∈
        (processMessage st (some d) queue webhook mn mx bh env).effects
    ∧ Effect.channel (ChannelOp.checkQueue queue) ∈
        (processMessage st (some d) queue webhook mn mx bh env).effects := by
  cases hcq : env.checkQueueResult with
  | ok n =>
    by_cases hn : n = 0
    · simp [processMessage, hopen, hc, hp, hw, hpl, hwr, hs, hcq, hn]
    · simp [processMessage, hopen, hc, hp, hw, hpl, hwr, hs, hcq, hn]
  | notFound => simp [processMessage, hopen, hc, hp, hw, hpl, hwr, hs, hcq]
  | err m => simp [processMessage, hopen, hc, hp, hw, hpl, hwr, hs, hcq]

/-- Witness for C1: a delivery captured on channel generation 1 is processed
while the current (recreated, open) channel has generation 2; the code still
acks it and still issues the queue-check. -/
theorem processMessage_ignores_channelVersion_witness :
    (1 : Nat) ≠ 2
    ∧ Effect.channel ChannelOp.ack ∈
        (processMessage
          ⟨true, 2, [("q1", ⟨"tag-1", "http://w", 1000, 2000, ⟨0, 24⟩, none, false⟩)],
            [("consumer:q1", [("webhook", "http://w")])], [], []⟩
          (some ⟨"m1", 1⟩) "q1" "http://w" 1000 2000 ⟨0, 24⟩
          ⟨12, some "pl", .response 200, .ok 3, 0, 0⟩).effects
    ∧ Effect.channel (ChannelOp.checkQueue "q1") ∈
        (processMessage
          ⟨true, 2, [("q1", ⟨"tag-1", "http://w", 1000, 2000, ⟨0, 24⟩, none, false⟩)],
            [("consumer:q1", [("webhook", "http://w")])], [], []⟩
          (some ⟨"m1", 1⟩) "q1" "http://w" 1000 2000 ⟨0, 24⟩
          ⟨12, some "pl", .response 200, .ok 3, 0, 0⟩).effects := by
  refine ⟨by decide, ?_⟩
  exact processMessage_ignores_channelVersion
    ⟨true, 2, [("q1", ⟨"tag-1", "http://w", 1000, 2000, ⟨0, 24⟩, none, false⟩)],
      [("consumer:q1", [("webhook", "http://w")])], [], []⟩
    ⟨"m1", 1⟩ "q1" "http://w" 1000 2000 ⟨0, 24⟩
    ⟨12, some "pl", .response 200, .ok 3, 0, 0⟩
    ⟨"tag-1", "http://w", 1000, 2000, ⟨0, 24⟩, none, false⟩ "pl" 200
    (by decide) rfl (by decide) rfl (by decide) rfl rfl (by decide)

/-- C2 (refuting the double removal): when the drain check after a
successful ack observes `messageCount = 0`, src/index.js cancels the broker
subscription, sends the finish notification and deletes the entry from the
in-memory registry — but issues no Redis delete: the resulting store equals
the input store, so the persisted row for the queue survives the drain. -/
theorem drain_removes_registry_but_not_store (st : SysState) (d : Delivery)
    (queue webhook : String) (mn mx : Int) (bh : BusinessHours) (env : Env)
    (c : RuntimeConsumer) (pl : String) (s : Nat)
    (hopen : st.channelOpen = true)
    (hc : assocGet st.registry queue = some c)
    (hp : c.paused = false)
    (hw : isWithinBusinessHours env.hour bh = true)
    (hpl : env.parse = some pl)
    (hwr : env.webhookResult = .response s)
    (hs : 200 ≤ s ∧ s < 300)
    (hcq : env.checkQueueResult = .ok 0) :
    (processMessage st (some d) queue webhook mn mx bh env).effects
        = [Effect.webhookPost webhook pl, Effect.channel ChannelOp.ack,
           Effect.channel (ChannelOp.checkQueue queue),
           Effect.channel (ChannelOp.cancel c.consumerTag),
           Effect.finishNotify queue (some pl)]
    ∧ assocGet (processMessage st (some d) queue webhook mn mx bh env).registry queue
        = none
    ∧ (processMessage st (some d) queue webhook mn mx bh env).store = st.store := by
  refine ⟨?_, ?_, ?_⟩ <;>
    simp [processMessage, hopen, hc, hp, hw, hpl, hwr, hs, hcq, assocGet_delete_self]

/-- Witness for C2: a drained queue whose Redis row is present before the
drain; after the pipeline the registry entry is gone but the store still
holds the very same row. -/
theorem drain_removes_registry_but_not_store_witness :
    (processMessage
        ⟨true, 1, [("q1", ⟨"tag-1", "http://w", 1000, 2000, ⟨0, 24⟩, none, false⟩)],
          [("consumer:q1", [("webhook", "http://w"), ("paused", "false")])], [], []⟩
        (some ⟨"m1", 1⟩) "q1" "http://w" 1000 2000 ⟨0, 24⟩
        ⟨12, some "pl", .response 200, .ok 0, 0, 0⟩).store
      = [("consumer:q1", [("webhook", "http://w"), ("paused", "false")])]
    ∧ assocGet (processMessage
        ⟨true, 1, [("q1", ⟨"tag-1", "http://w", 1000, 2000, ⟨0, 24⟩, none, false⟩)],
          [("consumer:q1", [("webhook", "http://w"), ("paused", "false")])], [], []⟩
        (some ⟨"m1", 1⟩) "q1" "http://w" 1000 2000 ⟨0, 24⟩
        ⟨12, some "pl", .response 200, .ok 0, 0, 0⟩).registry "q1" = none := by
  have h := drain_removes_registry_but_not_store
    ⟨true, 1, [("q1", ⟨"tag-1", "http://w", 1000, 2000, ⟨0, 24⟩, none, false⟩)],
      [("consumer:q1", [("webhook", "http://w"), ("paused", "false")])], [], []⟩
    ⟨"m1", 1⟩ "q1" "http://w" 1000 2000 ⟨0, 24⟩
    ⟨12, some "pl", .response 200, .ok 0, 0, 0⟩
    ⟨"tag-1", "http://w", 1000, 2000, ⟨0, 24⟩, none, false⟩ "pl" 200
    rfl (by decide) rfl (by decide) rfl rfl (by decide) rfl
  exact ⟨h.2.2, h.2.1⟩

/-- C6 (refuting the Store purge on a live 404): when the drain-check
`checkQueue` rejects with 404 (`no queue`), the `catch` of `processMessage`
deletes the consumer from the in-memory registry only — it never calls
`deleteConsumerFromRedis`, so the Redis row for the deleted queue remains in
the store. -/
theorem live404_removes_registry_but_not_store (st : SysState) (d : Delivery)
    (queue webhook : String) (mn mx : Int) (bh : BusinessHours) (env : Env)
    (c : RuntimeConsumer) (pl : String) (s : Nat)
    (hopen : st.channelOpen = true)
    (hc : assocGet st.registry queue = some c)
    (hp : c.paused = false)
    (hw : isWithinBusinessHours env.hour bh = true)
    (hpl : env.parse = some pl)
    (hwr : env.webhookResult = .response s)
    (hs : 200 ≤ s ∧ s < 300)
    (hcq : env.checkQueueResult = .notFound) :
    assocGet (processMessage st (some d) queue webhook mn mx bh env).registry queue
        = none
    ∧ (processMessage st (some d) queue webhook mn mx bh env).store = st.store := by
  constructor <;>
    simp [processMessage, hopen, hc, hp, hw, hpl, hwr, hs, hcq, assocGet_delete_self]

/-- Witness for C6: a 404 observed at the drain check; the registry entry is
removed but the store still holds the row for the vanished queue. -/
theorem live404_removes_registry_but_not_store_witness :
    assocGet (processMessage
        ⟨true, 1, [("q1", ⟨"tag-1", "http://w", 1000, 2000, ⟨0, 24⟩, none, false⟩)],
          [("consumer:q1", [("webhook", "http://w")])], [], []⟩
        (some ⟨"m1", 1⟩) "q1" "http://w" 1000 2000 ⟨0, 24⟩
        ⟨12, some "pl", .response 200, .notFound, 0, 0⟩).registry "q1" = none
    ∧ (processMessage
        ⟨true, 1, [("q1", ⟨"tag-1", "http://w", 1000, 2000, ⟨0, 24⟩, none, false⟩)],
          [("consumer:q1", [("webhook", "http://w")])], [], []⟩
        (some ⟨"m1", 1⟩) "q1" "http://w" 1000 2000 ⟨0, 24⟩
        ⟨12, some "pl", .response 200, .notFound, 0, 0⟩).store
      = [("consumer:q1", [("webhook", "http://w")])] := by
  have h := live404_removes_registry_but_not_store
    ⟨true, 1, [("q1", ⟨"tag-1", "http://w", 1000, 2000, ⟨0, 24⟩, none, false⟩)],
      [("consumer:q1", [("webhook", "http://w")])], [], []⟩
    ⟨"m1", 1⟩ "q1" "http://w" 1000 2000 ⟨0, 24⟩
    ⟨12, some "pl", .response 200, .notFound, 0, 0⟩
    ⟨"tag-1", "http://w", 1000, 2000, ⟨0, 24⟩, none, false⟩ "pl" 200
    rfl (by decide) rfl (by decide) rfl rfl (by decide) rfl
  exact ⟨h.1, h.2⟩

/-- C4 (counterexample): webhook answers HTTP 500 — the delivery is acked,
but `lastMessage` is not updated (the registry is returned unchanged, with
`lastMessage` still `none`) and no drain queue-check is issued. -/
theorem webhook500_ack_without_drainCheck :
    (processMessage
        ⟨true, 1, [("q1", ⟨"tag-1", "http://w", 1000, 2000, ⟨0, 24⟩, none, false⟩)],
          [("consumer:q1", [("webhook", "http://w")])], [], []⟩
        (some ⟨"m1", 1⟩) "q1" "http://w" 1000 2000 ⟨0, 24⟩
        ⟨12, some "pl", .response 500, .ok 3, 0, 0⟩)
      = ⟨[Effect.webhookPost "http://w" "pl", Effect.channel ChannelOp.ack],
         [("q1", ⟨"tag-1", "http://w", 1000, 2000, ⟨0, 24⟩, none, false⟩)],
         [("consumer:q1", [("webhook", "http://w")])], [], []⟩ := by
  decide

/-- C4 (amended): once an HTTP response is received, a 2xx status leads to
ack, `lastMessage` update and the drain queue-check; a non-2xx status (axios
rejects with `error.response` set) leads to an ack only — the registry
(hence `lastMessage`), store and interval bookkeeping are returned
unchanged and no queue-check is issued. -/
theorem webhook_response_handling (st : SysState) (d : Delivery)
    (queue webhook : String) (mn mx : Int) (bh : BusinessHours) (env : Env)
    (c : RuntimeConsumer) (pl : String) (s : Nat)
    (hopen : st.channelOpen = true)
    (hc : assocGet st.registry queue = some c)
    (hp : c.paused = false)
    (hw : isWithinBusinessHours env.hour bh = true)
    (hpl : env.parse = some pl)
    (hwr : env.webhookResult = .response s) :
    (200 ≤ s ∧ s < 300 →
        Effect.channel ChannelOp.ack ∈
            (processMessage st (some d) queue webhook mn mx bh env).effects
        ∧ Effect.channel (ChannelOp.checkQueue queue) ∈
            (processMessage st (some d) queue webhook mn mx bh env).effects
        ∧ ∀ n, env.checkQueueResult = .ok n → ¬ n = 0 →
            assocGet (processMessage st (some d) queue webhook mn mx bh env).registry
                queue = some { c with lastMessage := some pl })
    ∧ (¬ (200 ≤ s ∧ s < 300) →
        processMessage st (some d) queue webhook mn mx bh env
          = ⟨[Effect.webhookPost webhook pl, Effect.channel ChannelOp.ack],
             st.registry, st.store, st.queueIntervals, st.lastSend⟩) := by
  constructor
  · intro hs
    refine ⟨?_, ?_, ?_⟩
    · cases hcq : env.checkQueueResult with
      | ok n =>
        by_cases hn : n = 0
        · simp [processMessage, hopen, hc, hp, hw, hpl, hwr, hs, hcq, hn]
        · simp [processMessage, hopen, hc, hp, hw, hpl, hwr, hs, hcq, hn]
      | notFound => simp [processMessage, hopen, hc, hp, hw, hpl, hwr, hs, hcq]
      | err m => simp [processMessage, hopen, hc, hp, hw, hpl, hwr, hs, hcq]
    · cases hcq : env.checkQueueResult with
      | ok n =>
        by_cases hn : n = 0
        · simp [processMessage, hopen, hc, hp, hw, hpl, hwr, hs, hcq, hn]
        · simp [processMessage, hopen, hc, hp, hw, hpl, hwr, hs, hcq, hn]
      | notFound => simp [processMessage, hopen, hc, hp, hw, hpl, hwr, hs, hcq]
      | err m => simp [processMessage, hopen, hc, hp, hw, hpl, hwr, hs, hcq]
    · intro n hcq hn
      simp [processMessage, hopen, hc, hp, hw, hpl, hwr, hs, hcq, hn,
        assocGet_update_self]
  · intro hs
    simp [processMessage, hopen, hc, hp, hw, hpl, hwr, hs]

/-- Witness for C4 (amended) at HTTP 204 with three messages left: ack and
queue-check are issued and `lastMessage` is updated to the decoded payload. -/
theorem webhook_response_handling_witness :
    ((200 : Nat) ≤ 204 ∧ (204 : Nat) < 300)
    ∧ Effect.channel ChannelOp.ack ∈
        (processMessage
          ⟨true, 1, [("q1", ⟨"tag-1", "http://w", 1000, 2000, ⟨0, 24⟩, none, false⟩)],
            [], [], []⟩
          (some ⟨"m1", 1⟩) "q1" "http://w" 1000 2000 ⟨0, 24⟩
          ⟨12, some "pl", .response 204, .ok 3, 0, 0⟩).effects
    ∧ assocGet (processMessage
          ⟨true, 1, [("q1", ⟨"tag-1", "http://w", 1000, 2000, ⟨0, 24⟩, none, false⟩)],
            [], [], []⟩
          (some ⟨"m1", 1⟩) "q1" "http://w" 1000 2000 ⟨0, 24⟩
          ⟨12, some "pl", .response 204, .ok 3, 0, 0⟩).registry "q1"
        = some ⟨"tag-1", "http://w", 1000, 2000, ⟨0, 24⟩, some "pl", false⟩ := by
  have h := webhook_response_handling
    ⟨true, 1, [("q1", ⟨"tag-1", "http://w", 1000, 2000, ⟨0, 24⟩, none, false⟩)],
      [], [], []⟩
    ⟨"m1", 1⟩ "q1" "http://w" 1000 2000 ⟨0, 24⟩
    ⟨12, some "pl", .response 204, .ok 3, 0, 0⟩
    ⟨"tag-1", "http://w", 1000, 2000, ⟨0, 24⟩, none, false⟩ "pl" 204
    rfl (by decide) rfl (by decide) rfl rfl
  have h1 := h.1 (by decide)
  exact ⟨by decide, h1.1, h1.2.2 3 rfl (by decide)⟩

/-- C3 (counterexample): a failing Redis write inside `saveConsumerToRedis`
or `updateConsumerPausedState` is swallowed — the function returns normally
with outcome `continue` (the enum value distinct from every
`exitProcess code`), so the process neither exits nor observes the error. -/
theorem storeFailure_process_continues :
    saveConsumerToRedis (.ioError "EPIPE") [] "q1" "http://w" 1000 2000 ⟨8, 21⟩ false
      = ([], ProcOutcome.continue)
    ∧ updateConsumerPausedState (.ioError "EPIPE") [] "q1" true
      = ([], ProcOutcome.continue)
    ∧ (saveConsumerToRedis (.ioError "EPIPE") [] "q1" "http://w" 1000 2000
        ⟨8, 21⟩ false).2 ≠ ProcOutcome.exitProcess 1 := by
  decide

/-- C3 (amended): every Store I/O failure is caught and logged; the failing
operation returns normally with the store unchanged and the process
continues — it does not exit, for all three Store operations of the
source. -/
theorem storeFailure_swallowed (emsg : String) (st : Store) (queue webhook : String)
    (mn mx : Int) (bh : BusinessHours) (p : Bool) :
    saveConsumerToRedis (.ioError emsg) st queue webhook mn mx bh p
        = (st, ProcOutcome.continue)
    ∧ deleteConsumerFromRedis (.ioError emsg) st queue = (st, ProcOutcome.continue)
    ∧ updateConsumerPausedState (.ioError emsg) st queue p
        = (st, ProcOutcome.continue) :=
  ⟨rfl, rfl, rfl⟩

/-- C7 (counterexample): the Redis write issued by the `POST /pause` handler
fails with an I/O error; `updateConsumerPausedState` swallows the failure,
and the handler still answers success — while the store row for the queue
still carries `paused = "false"`.  Success therefore does not imply durable
persistence of the transition. -/
theorem pauseSuccess_without_persistence :
    pauseHandler
        [("q1", ⟨"tag-1", "http://w", 1000, 2000, ⟨8, 21⟩, none, false⟩)]
        [("consumer:q1", [("webhook", "http://w"), ("paused", "false")])]
        "q1" (.ioError "EPIPE")
      = (.ok "Queue q1 has been paused",
         [("q1", ⟨"tag-1", "http://w", 1000, 2000, ⟨8, 21⟩, none, true⟩)],
         [("consumer:q1", [("webhook", "http://w"), ("paused", "false")])]) := by
  decide

/-- C7 (amended): the pause/resume handlers issue and await the Store write
before answering; when the Redis write succeeds, the store returned together
with the success response already carries the new `paused` value.  When the
write fails the failure is swallowed and success is returned anyway (see the
counterexample), so success implies persistence only for a non-failing
Store. -/
theorem pauseResume_persisted_before_success (reg : Registry) (st : Store)
    (queue : String) (c : RuntimeConsumer)
    (hq : ¬ jsTrim queue = "")
    (hc : assocGet reg queue = some c) :
    (c.paused = false →
        (pauseHandler reg st queue .ok).1
            = .ok ("Queue " ++ queue ++ " has been paused")
        ∧ assocGet (storeHGetAll (pauseHandler reg st queue .ok).2.2
            ("consumer:" ++ queue)) "paused" = some "true")
    ∧ (c.paused = true →
        (resumeHandler reg st queue .ok).1
            = .ok ("Queue " ++ queue ++ " has been resumed")
        ∧ assocGet (storeHGetAll (resumeHandler reg st queue .ok).2.2
            ("consumer:" ++ queue)) "paused" = some "false") := by
  constructor
  · intro hp
    constructor
    · simp [pauseHandler, hq, hc, hp]
    · simp [pauseHandler, hq, hc, hp, updateConsumerPausedState, storeHSetField,
        storeHSet, storeHGetAll, boolToString, assocGet_set_self]
  · intro hp
    constructor
    · simp [resumeHandler, hq, hc, hp]
    · simp [resumeHandler, hq, hc, hp, updateConsumerPausedState, storeHSetField,
        storeHSet, storeHGetAll, boolToString, assocGet_set_self]

/-- Witness for C7 (amended): pausing `q1` with a healthy store; the success
response comes with the store already holding `paused = "true"`. -/
theorem pauseResume_persisted_before_success_witness :
    (¬ jsTrim "q1" = "")
    ∧ assocGet [("q1", (⟨"tag-1", "http://w", 1000, 2000, ⟨8, 21⟩, none, false⟩ :
        RuntimeConsumer))] "q1"
        = some ⟨"tag-1", "http://w", 1000, 2000, ⟨8, 21⟩, none, false⟩
    ∧ ((pauseHandler
          [("q1", ⟨"tag-1", "http://w", 1000, 2000, ⟨8, 21⟩, none, false⟩)]
          [("consumer:q1", [("webhook", "http://w"), ("paused", "false")])]
          "q1" .ok).1 = .ok "Queue q1 has been paused"
        ∧ assocGet (storeHGetAll (pauseHandler
            [("q1", ⟨"tag-1", "http://w", 1000, 2000, ⟨8, 21⟩, none, false⟩)]
            [("consumer:q1", [("webhook", "http://w"), ("paused", "false")])]
            "q1" .ok).2.2 "consumer:q1") "paused" = some "true") := by
  refine ⟨by decide, by decide, ?_⟩
  exact (pauseResume_persisted_before_success
    [("q1", ⟨"tag-1", "http://w", 1000, 2000, ⟨8, 21⟩, none, false⟩)]
    [("consumer:q1", [("webhook", "http://w"), ("paused", "false")])]
    "q1" ⟨"tag-1", "http://w", 1000, 2000, ⟨8, 21⟩, none, false⟩
    (by decide) (by decide)).1 rfl

/-- C5 (refuting "paused applied before any delivery can be observed"):
during restoration the broker subscription is created inside
`startConsuming`, which registers the RuntimeConsumer with
`paused := false`; only after `startConsuming` has returned does the restore
loop apply the persisted flag.  So for a config persisted with
`paused = "true"` there is an intermediate state — subscription already
active — whose registry entry is unpaused; `restoreOne` then sets the flag
before completing. -/
theorem restore_applies_paused_after_subscribe (reg : Registry)
    (qi : List (String × Int)) (st : Store) (key tag : String) (u : ℚ) (w : String)
    (hwh : assocGet (storeHGetAll st key) "webhook" = some w)
    (hw0 : ¬ w = "")
    (hps : assocGet (storeHGetAll st key) "paused" = some "true") :
    (∀ mn mx bh reg1 qi1,
        startConsuming true (.ok tag) u reg qi (jsReplaceFirst key "consumer:" "")
            w mn mx bh = .ok (reg1, qi1) →
        (assocGet reg1 (jsReplaceFirst key "consumer:" "")).map RuntimeConsumer.paused
            = some false)
    ∧ (assocGet (restoreOne true (.ok tag) u reg qi st key).1
        (jsReplaceFirst key "consumer:" "")).map RuntimeConsumer.paused
        = some true := by
  constructor
  · intro mn mx bh reg1 qi1 hstart
    simp only [startConsuming, Bool.true_eq_false, if_false, Except.ok.injEq,
      Prod.mk.injEq] at hstart
    rw [← hstart.1]
    simp [assocGet_set_self]
  · simp [restoreOne, startConsuming, hwh, hw0, hps, assocGet_set_self]

/-- Witness for C5: restoring `consumer:q1` persisted with `paused = "true"`:
right after the subscription the registry entry is unpaused; after the whole
restore step it is paused. -/
theorem restore_applies_paused_after_subscribe_witness :
    assocGet (storeHGetAll
        [("consumer:q1",
          [("webhook", "http://w"), ("minInterval", "1000"), ("maxInterval", "2000"),
           ("businessHoursStart", "0"), ("businessHoursEnd", "24"),
           ("paused", "true")])] "consumer:q1") "webhook" = some "http://w"
    ∧ (¬ "http://w" = "")
    ∧ assocGet (storeHGetAll
        [("consumer:q1",
          [("webhook", "http://w"), ("minInterval", "1000"), ("maxInterval", "2000"),
           ("businessHoursStart", "0"), ("businessHoursEnd", "24"),
           ("paused", "true")])] "consumer:q1") "paused" = some "true"
    ∧ (assocGet
        (assocSet [] (jsReplaceFirst "consumer:q1" "consumer:" "")
          (⟨"tag-1", "http://w", 1000, 2000, ⟨0, 24⟩, none, false⟩ : RuntimeConsumer))
        (jsReplaceFirst "consumer:q1" "consumer:" "")).map RuntimeConsumer.paused
        = some false
    ∧ (assocGet (restoreOne true (.ok "tag-1") 0 [] []
        [("consumer:q1",
          [("webhook", "http://w"), ("minInterval", "1000"), ("maxInterval", "2000"),
           ("businessHoursStart", "0"), ("businessHoursEnd", "24"),
           ("paused", "true")])] "consumer:q1").1
        (jsReplaceFirst "consumer:q1" "consumer:" "")).map RuntimeConsumer.paused
        = some true := by
  have h := restore_applies_paused_after_subscribe [] [] 
    [("consumer:q1",
      [("webhook", "http://w"), ("minInterval", "1000"), ("maxInterval", "2000"),
       ("businessHoursStart", "0"), ("businessHoursEnd", "24"),
       ("paused", "true")])] "consumer:q1" "tag-1" 0 "http://w"
    (by decide) (by decide) (by decide)
  refine ⟨by decide, by decide, by decide, ?_, h.2⟩
  exact h.1 1000 2000 ⟨0, 24⟩
    (assocSet [] (jsReplaceFirst "consumer:q1" "consumer:" "")
      ⟨"tag-1", "http://w", 1000, 2000, ⟨0, 24⟩, none, false⟩)
    (assocSet [] (jsReplaceFirst "consumer:q1" "consumer:" "")
      (getRandomInterval 0 1000 2000)) rfl

/-- C10: every failure inside `startConsuming`'s subscribe attempt — queue
check, prefetch, or consume, whatever the underlying broker message — is
rethrown as `Queue <queue> does not exist`; consequently, during restoration
from the store, the `includes('does not exist')` test matches and the
persisted config for that queue is deleted, transient broker errors for an
existing queue included. -/
theorem subscribeFailure_rethrown_and_purged (st : Store) (reg : Registry)
    (qi : List (String × Int)) (u : ℚ) (key w m : String) (orc : SubscribeOracle)
    (hwh : assocGet (storeHGetAll st key) "webhook" = some w)
    (hw0 : ¬ w = "")
    (horc : orc = .checkQueueFails m ∨ orc = .prefetchFails m ∨ orc = .consumeFails m) :
    (∀ (reg2 : Registry) (qi2 : List (String × Int)) (queue webhook : String)
        (mn mx : Int) (bh : BusinessHours),
        startConsuming true orc u reg2 qi2 queue webhook mn mx bh
          = .error ("Queue " ++ queue ++ " does not exist"))
    ∧ restoreOne true orc u reg qi st key = (reg, qi, storeDel st key)
    ∧ assocGet (restoreOne true orc u reg qi st key).2.2 key = none := by
  have hstart : ∀ (reg2 : Registry) (qi2 : List (String × Int)) (queue webhook : String)
      (mn mx : Int) (bh : BusinessHours),
      startConsuming true orc u reg2 qi2 queue webhook mn mx bh
        = .error ("Queue " ++ queue ++ " does not exist") := by
    intro reg2 qi2 queue webhook mn mx bh
    rcases horc with h | h | h <;> subst h <;> simp [startConsuming]
  have hrest : restoreOne true orc u reg qi st key = (reg, qi, storeDel st key) := by
    simp [restoreOne, hwh, hw0, hstart, jsIncludes_doesNotExist]
  refine ⟨hstart, hrest, ?_⟩
  rw [hrest]
  simp [storeDel, assocGet_delete_self]

/-- Witness for C10: the queue exists (the check succeeded) but `prefetch`
fails with a timeout; the rethrown error still reads `does not exist` and
the restore loop deletes the persisted row for `q1`. -/
theorem subscribeFailure_rethrown_and_purged_witness :
    assocGet (storeHGetAll [("consumer:q1", [("webhook", "http://w")])]
        "consumer:q1") "webhook" = some "http://w"
    ∧ (¬ "http://w" = "")
    ∧ ((SubscribeOracle.prefetchFails "operation timed out")
          = .checkQueueFails "operation timed out"
        ∨ (SubscribeOracle.prefetchFails "operation timed out")
          = .prefetchFails "operation timed out"
        ∨ (SubscribeOracle.prefetchFails "operation timed out")
          = .consumeFails "operation timed out")
    ∧ startConsuming true (.prefetchFails "operation timed out") 0 [] [] "q1"
        "http://w" 1000 2000 ⟨0, 24⟩ = .error "Queue q1 does not exist"
    ∧ restoreOne true (.prefetchFails "operation timed out") 0 [] []
        [("consumer:q1", [("webhook", "http://w")])] "consumer:q1"
        = ([], [], storeDel [("consumer:q1", [("webhook", "http://w")])] "consumer:q1")
    ∧ assocGet (restoreOne true (.prefetchFails "operation timed out") 0 [] []
        [("consumer:q1", [("webhook", "http://w")])] "consumer:q1").2.2
        "consumer:q1" = none := by
  have h := subscribeFailure_rethrown_and_purged
    [("consumer:q1", [("webhook", "http://w")])] [] [] 0 "consumer:q1" "http://w"
    "operation timed out" (.prefetchFails "operation timed out")
    (by decide) (by decide) (Or.inr (Or.inl rfl))
  exact ⟨by decide, by decide, Or.inr (Or.inl rfl),
    h.1 [] [] "q1" "http://w" 1000 2000 ⟨0, 24⟩, h.2.1, h.2.2⟩
